import Mathlib

/-!
Verification of `code/data_downloaders/ffiec_nic_downloader.py`.

The script is a sequential retrieval orchestrator: it ensures output
directories exist, downloads a fixed catalog of files over HTTP, optionally
extracts zip archives, writes two static instruction documents, and records a
JSON manifest of per-step boolean results.

Shallow embedding conventions:
- Filesystem paths are lists of segments relative to the output directory
  (`[]` is the output directory itself).
- Every operation returns its result together with a `Trace`: the filesystem
  events it performs (`mkdir` calls and file writes), the URLs it requests,
  and the lines it prints.  Python functions that can raise an uncaught
  exception return `Except Unit`.
- Network nondeterminism is an oracle `net : String → TransportResult`
  mapping each URL to the transport outcome of its GET, and
  `zipParse : String → ZipArchive` mapping downloaded bytes to the parsed
  archive (corrupt or a list of entries).  The FDIC REST API response is an
  `ApiResult` (transport failure, or the parsed JSON object).
- Wall-clock timestamps are passed in as a `now : String` parameter where the
  code calls `datetime.now()`; the timestamp prefix of log lines is elided
  (log lines are compared only for presence, never content).
- Byte-level JSON/CSV serialization is out of scope (per the specification);
  file contents are recorded structurally in `FileData`.
-/

namespace FfiecNic

/-- A JSON value, as produced by `response.json()` / consumed by `json.dump`.
Numbers are modelled as integers (no float arithmetic occurs in the code). -/
inductive Json where
  | jnull
  | jbool (b : Bool)
  | jnum (n : Int)
  | jstr (s : String)
  | jarr (items : List Json)
  | jobj (fields : List (String × Json))

/-- Python truthiness of a parsed JSON value (`if data:` / `if not records:`). -/
def Json.truthy : Json → Bool
  | .jnull => false
  | .jbool b => b
  | .jnum n => n != 0
  | .jstr s => s != ""
  | .jarr items => !items.isEmpty
  | .jobj fields => !fields.isEmpty

/-- One entry of the `DATA_SOURCES` catalog (lines 50-115 of the source). -/
structure Source where
  name : String
  description : String
  url : String
  format : String
  direct_download : Bool
  filename : String
deriving Repr, DecidableEq

/-- `DEFAULT_OUTPUT_DIR = Path("./data/downloads")`. -/
def DEFAULT_OUTPUT_DIR : String := "./data/downloads"

/-- `USER_AGENT` constant (sent as a header; behaviourally inert here). -/
def USER_AGENT : String := "Mozilla/5.0 (Windows NT 10.0; Win64; x64) AppleWebKit/537.36"

/-- The static `DATA_SOURCES` catalog, in Python dict insertion order. -/
def DATA_SOURCES : List (String × Source) :=
  [ ("fdic_failed_banks",
      ⟨"FDIC Failed Bank List",
       "List of all FDIC-insured banks that have failed since October 1, 2000",
       "https://www.fdic.gov/bank-failures/download-data.csv",
       "csv", true, "fdic_failed_banks.csv"⟩),
    ("fdic_failed_banks_legacy",
      ⟨"FDIC Failed Bank List (Legacy URL)",
       "Alternative URL for failed bank list",
       "https://www.fdic.gov/resources/resolutions/bank-failures/failed-bank-list/banklist.csv",
       "csv", true, "fdic_failed_banks_legacy.csv"⟩),
    ("nic_data_dictionary",
      ⟨"NIC Data Dictionary",
       "Documentation for NIC bulk data tables (Attributes, Relationships, Transformations)",
       "https://www.ffiec.gov/npw/StaticData/DataDownload/NPW%20Data%20Dictionary.pdf",
       "pdf", true, "NPW_Data_Dictionary.pdf"⟩),
    ("nic_attributes_csv",
      ⟨"NIC Attributes Table (CSV)",
       "Institution attributes data - entity characteristics",
       "https://www.ffiec.gov/npw/StaticData/DataDownload/CSV/CSV_ATTRIBUTES_ACTIVE.zip",
       "zip", true, "NIC_Attributes_Active.zip"⟩),
    ("nic_attributes_closed_csv",
      ⟨"NIC Attributes Table - Closed Institutions (CSV)",
       "Attributes for closed/failed institutions",
       "https://www.ffiec.gov/npw/StaticData/DataDownload/CSV/CSV_ATTRIBUTES_CLOSED.zip",
       "zip", true, "NIC_Attributes_Closed.zip"⟩),
    ("nic_attributes_branches_csv",
      ⟨"NIC Attributes Table - Branches (CSV)",
       "Branch office attributes",
       "https://www.ffiec.gov/npw/StaticData/DataDownload/CSV/CSV_ATTRIBUTES_BRANCHES.zip",
       "zip", true, "NIC_Attributes_Branches.zip"⟩),
    ("nic_relationships_csv",
      ⟨"NIC Relationships Table (CSV)",
       "Ownership relationships between institutions",
       "https://www.ffiec.gov/npw/StaticData/DataDownload/CSV/CSV_RELATIONSHIPS.zip",
       "zip", true, "NIC_Relationships.zip"⟩),
    ("nic_transformations_csv",
      ⟨"NIC Transformations Table (CSV)",
       "Mergers, acquisitions, and other transformation events",
       "https://www.ffiec.gov/npw/StaticData/DataDownload/CSV/CSV_TRANSFORMATIONS.zip",
       "zip", true, "NIC_Transformations.zip"⟩) ]

/-- `CHICAGO_FED_YEARS = list(range(1976, 2001))`. -/
def CHICAGO_FED_YEARS : List Nat := (List.range 25).map (· + 1976)

/-- `CHICAGO_FED_QUARTERS`. -/
def CHICAGO_FED_QUARTERS : List String := ["0331", "0630", "0930", "1231"]

/-- `FDIC_API_BASE`. -/
def FDIC_API_BASE : String := "https://banks.data.fdic.gov/api"

/-- `FDIC_API_ENDPOINTS`. -/
def FDIC_API_ENDPOINTS : List (String × String) :=
  [("failures", "/failures"), ("institutions", "/institutions"),
   ("financials", "/financials"), ("history", "/history"),
   ("locations", "/locations")]

/-- Structural content of a written file.  Serialization to bytes is out of
scope; the constructors record which writer produced the file and from what
data. -/
inductive FileData where
  | bytes (s : String)
  | jsonDoc (j : Json)
  | csvDoc (headers : List String) (rows : List (List (String × Json)))
  | text (s : String)
  | manifestDoc (download_date : String) (output_directory : String)
      (results : List (String × Bool)) (data_sources : List (String × String))

/-- A filesystem event: an idempotent `mkdir(exist_ok=True)` call or a file
write (create/overwrite).  Paths are segment lists under the output dir. -/
inductive FSEvent where
  | mkdir (path : List String)
  | writeFile (path : List String) (data : FileData)

/-- True for file-write events. -/
def FSEvent.isWrite : FSEvent → Bool
  | .writeFile _ _ => true
  | .mkdir _ => false

/-- The path an event touches. -/
def FSEvent.path : FSEvent → List String
  | .writeFile p _ => p
  | .mkdir p => p

/-- The observable effects of one operation, in order: filesystem events,
HTTP requests issued (by URL), and printed output lines. -/
structure Trace where
  fs : List FSEvent
  http : List String
  out : List String

/-- The empty trace. -/
def Trace.nil : Trace := ⟨[], [], []⟩

instance : Append Trace :=
  ⟨fun a b => ⟨a.fs ++ b.fs, a.http ++ b.http, a.out ++ b.out⟩⟩

theorem Trace.append_def (a b : Trace) :
    a ++ b = ⟨a.fs ++ b.fs, a.http ++ b.http, a.out ++ b.out⟩ := rfl

/-- A trace with only printed output. -/
def Trace.ofOut (out : List String) : Trace := ⟨[], [], out⟩

/-- The trace with printed output removed: what the run did to the world
besides logging. -/
def Trace.strip (t : Trace) : Trace := ⟨t.fs, t.http, []⟩

/-- Downloader configuration: the `FFIECDownloader` fields that affect
behaviour (`output_dir` and `verbose`; the `requests.Session` handle is
behaviourally the `net` oracle threaded through the operations). -/
structure Config where
  outputDir : String
  verbose : Bool

/-- `FFIECDownloader.log`: prints the message (timestamp prefix elided) when
verbose mode is on. -/
def log (cfg : Config) (message : String) : List String :=
  if cfg.verbose then [message] else []

/-- Render a segment path for log messages. -/
def pathString (p : List String) : String := String.intercalate "/" p

/-- Python `str.startswith`, defined structurally on the character lists so
that it evaluates by kernel reduction (`String.startsWith` in core is
implemented with a well-founded loop that does not). -/
def startsWithStr (s pre : String) : Bool := pre.data.isPrefixOf s.data

/-- A banner line of `n` equals signs (the source writes them literally). -/
def sepLine (n : Nat) : String := String.mk (List.replicate n '=')

/-- Transport outcome of one streamed GET:
- `ok total chunks`: 2xx response with the given `content-length` header value
  and body chunks;
- `failBefore`: `session.get` or `raise_for_status` raised a
  `RequestException` (timeout, connection error, non-2xx status) before the
  output file was opened;
- `failMid chunks`: the response turned 2xx but iterating the body raised a
  `RequestException` after the given chunks were already written, leaving a
  truncated file. -/
inductive TransportResult where
  | ok (total : Nat) (chunks : List String)
  | failBefore
  | failMid (chunks : List String)
deriving Repr, DecidableEq

/-- Whether the transfer completed. -/
def TransportResult.isOk : TransportResult → Bool
  | .ok _ _ => true
  | _ => false

/-- The bytes that ended up on disk (concatenated chunks; the `if chunk:`
filter in the source skips empty chunks, which does not change the
concatenation). -/
def TransportResult.body : TransportResult → String
  | .ok _ chunks => String.join chunks
  | .failMid chunks => String.join chunks
  | .failBefore => ""

/-- `FFIECDownloader.download_file` (lines 158-185): streamed GET written in
chunks; returns `True` on success; any `requests.exceptions.RequestException`
is caught, logged, and turned into `False`.  A mid-body failure leaves the
truncated file in place but still returns `False`. -/
def download_file (cfg : Config) (net : String → TransportResult)
    (url : String) (output_path : List String) (description : String := "") :
    Bool × Trace :=
  let l1 := log cfg ("Downloading: " ++ (if description == "" then url else description))
  match net url with
  | .ok total chunks =>
      let progressOut :=
        if cfg.verbose && (total != 0) then
          List.replicate chunks.length "  Progress" ++ [""]
        else []
      (true,
       ⟨[.writeFile output_path (.bytes (String.join chunks))], [url],
        l1 ++ progressOut ++ log cfg ("  Saved to: " ++ pathString output_path)⟩)
  | .failBefore =>
      (false, ⟨[], [url], l1 ++ log cfg ("  ERROR: Failed to download " ++ url)⟩)
  | .failMid chunks =>
      (false,
       ⟨[.writeFile output_path (.bytes (String.join chunks))], [url],
        l1 ++ log cfg ("  ERROR: Failed to download " ++ url)⟩)

/-- A zip archive as parsed from downloaded bytes: corrupt (opening raises
`zipfile.BadZipFile`) or a list of (entry name, entry content) pairs. -/
inductive ZipArchive where
  | corrupt
  | valid (entries : List (String × String))
deriving Repr, DecidableEq

/-- `FFIECDownloader.extract_zip` (lines 187-197): extracts all entries into
`extract_dir` and returns one path per `namelist()` entry; on
`zipfile.BadZipFile` logs an error and returns the empty list.  `archive` is
the parsed content of the file at `zip_path`. -/
def extract_zip (cfg : Config) (archive : ZipArchive)
    (zip_path extract_dir : List String) : List (List String) × Trace :=
  let core : List (List String) × List FSEvent × List String :=
    match archive with
    | .valid entries =>
        (entries.map (fun e => extract_dir ++ [e.1]),
         entries.map (fun e => FSEvent.writeFile (extract_dir ++ [e.1]) (.bytes e.2)),
         log cfg ("  Extracted " ++ toString entries.length ++ " files to " ++
                  pathString extract_dir))
    | .corrupt =>
        ([], [], log cfg ("  ERROR: Bad zip file " ++ pathString zip_path))
  (core.1, ⟨core.2.1, [], core.2.2⟩)

/-- The characters before the last dot of the list, or `none` when no dot
occurs. -/
def lastDotPrefixChars : List Char → Option (List Char)
  | [] => none
  | c :: rest =>
      match lastDotPrefixChars rest with
      | some tail => some (c :: tail)
      | none => if c == '.' then some [] else none

/-- `Path(filename).stem`: the filename without its last suffix (a lone
leading dot does not start a suffix, matching pathlib). -/
def stemOf (s : String) : String :=
  match lastDotPrefixChars s.data with
  | some (c :: cs) => ⟨c :: cs⟩
  | some [] => s
  | none => s

/-- `FFIECDownloader.download_fdic_failed_banks` (lines 203-216): downloads
the two failed-bank-list mirrors into `fdic/`; the loop never breaks, so both
URLs are attempted; the result starts `True` and is set to `False` on any
failed download. -/
def download_fdic_failed_banks (cfg : Config)
    (net : String → TransportResult) : Bool × Trace :=
  let sep := log cfg (sepLine 60)
  let hdrT := Trace.ofOut (sep ++ log cfg "Downloading FDIC Failed Banks Data" ++ sep)
  let step := fun (key : String) =>
    match DATA_SOURCES.lookup key with
    | some src => download_file cfg net src.url ["fdic", src.filename] src.name
    | none => (false, Trace.nil)
  let s1 := step "fdic_failed_banks"
  let s2 := step "fdic_failed_banks_legacy"
  (s1.1 && s2.1, hdrT ++ s1.2 ++ s2.2)

/-- Outcome of the FDIC BankFind API call: a `RequestException` (timeout,
connection error, non-2xx, JSON decode error), or the parsed JSON object of
the response body. -/
inductive ApiResult where
  | err
  | ok (fields : List (String × Json))

/-- `FFIECDownloader.download_fdic_api_data` (lines 218-233), at its single
call site (`endpoint = "/failures"`, `limit = 10000`): issues the GET and
returns the parsed JSON on success, `None` on `RequestException`.  Query
parameter serialization is out of scope. -/
def download_fdic_api_data (cfg : Config) (api : ApiResult)
    (endpoint : String) : Option (List (String × Json)) × Trace :=
  let url := FDIC_API_BASE ++ endpoint
  let l1 := log cfg ("Fetching from FDIC API: " ++ endpoint)
  match api with
  | .err => (none, ⟨[], [url], l1 ++ log cfg "  ERROR: API request failed"⟩)
  | .ok fields => (some fields, ⟨[], [url], l1⟩)

/-- Interpret a JSON array as a list of records (list of objects); `none`
when some element is not an object. -/
def asRecordList : List Json → Option (List (List (String × Json)))
  | [] => some []
  | Json.jobj fields :: rest =>
      match asRecordList rest with
      | some rs => some (fields :: rs)
      | none => none
  | _ => none

/-- `FFIECDownloader._json_to_csv` (lines 252-265): returns without writing
when `records` is falsy; otherwise writes a CSV whose headers are the keys of
the first record.  When `records` is truthy but not a list of dicts the
Python code raises uncaught (`.error`). -/
def json_to_csv (cfg : Config) (records : Json) (output_path : List String) :
    Except Unit Trace :=
  if records.truthy = false then .ok Trace.nil
  else
    match records with
    | .jarr items =>
        match asRecordList items with
        | some rs =>
            .ok ⟨[.writeFile output_path (.csvDoc ((rs.headD []).map Prod.fst) rs)], [],
                 log cfg ("  Saved CSV: " ++ pathString output_path)⟩
        | none => .error ()
    | _ => .error ()

/-- `FFIECDownloader.download_fdic_failures_api` (lines 235-250): fetches
`/failures`; if the parsed response is truthy (a non-empty object) writes the
raw JSON, then additionally converts `data["data"]` to CSV when that key is
present, and returns `True`; otherwise returns `False` with no writes. -/
def download_fdic_failures_api (cfg : Config) (api : ApiResult) :
    Except Unit (Bool × Trace) :=
  let l0 := Trace.ofOut (log cfg "Downloading FDIC Failures via API...")
  let fetched := download_fdic_api_data cfg api "/failures"
  let t1 := l0 ++ fetched.2
  match fetched.1 with
  | some fields =>
      if fields.isEmpty then .ok (false, t1)
      else
        let t2 := t1 ++
          ⟨[.writeFile ["fdic", "fdic_failures_api.json"] (.jsonDoc (.jobj fields))], [],
           log cfg "  Saved API data to: fdic/fdic_failures_api.json"⟩
        match fields.lookup "data" with
        | some records =>
            match json_to_csv cfg records ["fdic", "fdic_failures_api.csv"] with
            | .ok t3 => .ok (true, t2 ++ t3)
            | .error u => .error u
        | none => .ok (true, t2)
  | none => .ok (false, t1)

/-- The body of the `download_nic_data` loop for one catalog entry: download
into `nic/`, and when the source format is `zip` and the download succeeded,
create a directory named after the archive stem and extract into it. -/
def processNicSource (cfg : Config) (net : String → TransportResult)
    (zipParse : String → ZipArchive) (p : String × Source) : Bool × Trace :=
  let src := p.2
  let output_path := ["nic", src.filename]
  let dl := download_file cfg net src.url output_path src.name
  if dl.1 then
    if src.format == "zip" then
      let stem := stemOf src.filename
      let ex := extract_zip cfg (zipParse (net src.url).body) output_path ["nic", stem]
      (true, dl.2 ++ ⟨[.mkdir ["nic", stem]], [], []⟩ ++ ex.2)
    else (true, dl.2)
  else (false, dl.2)

/-- `FFIECDownloader.download_nic_data` (lines 271-293): iterates over every
catalog key starting with `nic_`, in catalog order; the result starts `True`
and is set `False` on any failed download. -/
def download_nic_data (cfg : Config) (net : String → TransportResult)
    (zipParse : String → ZipArchive) : Bool × Trace :=
  let sep := log cfg (sepLine 60)
  let hdrT := Trace.ofOut (sep ++ log cfg "Downloading FFIEC NIC Bulk Data" ++ sep)
  let nic_sources := DATA_SOURCES.filter (fun p => startsWithStr p.1 "nic_")
  let steps := nic_sources.map (processNicSource cfg net zipParse)
  (steps.all (·.1), steps.foldl (fun acc s => acc ++ s.2) hdrT)

/-- The static Chicago Fed instruction document (lines 325-370); single
quotes are written via a hex escape for lexical hygiene. -/
def chicagoFedInstructions : String :=
  String.intercalate "\n"
    [ "# Chicago Fed Commercial Bank Data (1976-2000)", "",
      "## Overview",
      "Historical call report data from the Federal Reserve Bank of Chicago.",
      "Data is available quarterly from 1976 to 2000.", "",
      "## Format",
      "Files are in SAS XPORT format (.xpt)", "",
      "## How to Download",
      "1. Visit: https://www.chicagofed.org/banking/financial-institution-reports/commercial-bank-data-complete-1976-2000",
      "2. Select the year and quarter you need",
      "3. Download the compressed zip file containing SAS XPORT files", "",
      "## How to Read in Python",
      "```python",
      "import pyreadstat", "",
      "# Read SAS XPORT file",
      "df, meta = pyreadstat.read_xport(\x27call_report_1990q4.xpt\x27)", "",
      "# View column labels",
      "print(meta.column_names_to_labels)",
      "```", "",
      "## How to Read in R",
      "```r",
      "library(haven)",
      "df <- read_xpt(\"call_report_1990q4.xpt\")",
      "```", "",
      "## Available Years",
      "1976, 1977, 1978, 1979, 1980, 1981, 1982, 1983, 1984, 1985,",
      "1986, 1987, 1988, 1989, 1990, 1991, 1992, 1993, 1994, 1995,",
      "1996, 1997, 1998, 1999, 2000", "",
      "## Quarters",
      "- Q1: March 31 (0331)",
      "- Q2: June 30 (0630)",
      "- Q3: September 30 (0930)",
      "- Q4: December 31 (1231)", "",
      "## Alternative: FFIEC CDR for 2001+",
      "For data from 2001 onwards, use the FFIEC CDR:",
      "https://cdr.ffiec.gov/public/pws/downloadbulkdata.aspx", "" ]

/-- `FFIECDownloader.download_chicago_fed_data` (lines 299-377): downloads
nothing (direct URLs do not exist); prints guidance, writes the static
instruction document into `chicago_fed/`, and returns `True`. -/
def download_chicago_fed_data (cfg : Config) : Bool × Trace :=
  let sep := log cfg (sepLine 60)
  let notes :=
    log cfg "NOTE: Chicago Fed historical data (1976-2000) is in SAS XPORT format." ++
    log cfg "      Direct download URLs are not available - visit:" ++
    log cfg "      https://www.chicagofed.org/banking/financial-institution-reports/commercial-bank-data" ++
    log cfg "" ++
    log cfg "To read SAS XPORT files in Python, use:" ++
    log cfg "  pip install pyreadstat" ++
    log cfg "  import pyreadstat" ++
    log cfg "  df, meta = pyreadstat.read_xport(\x27filename.xpt\x27)"
  (true,
   ⟨[.writeFile ["chicago_fed", "DOWNLOAD_INSTRUCTIONS.md"] (.text chicagoFedInstructions)], [],
    sep ++ log cfg "Downloading Chicago Fed Historical Data (1976-2000)" ++ sep ++
    notes ++
    log cfg "  Saved instructions to: chicago_fed/DOWNLOAD_INSTRUCTIONS.md"⟩)

/-- The static CDR instruction document (lines 394-452); single quotes and
literal braces do not occur; double quotes are escaped. -/
def cdrInstructions : String :=
  String.intercalate "\n"
    [ "# FFIEC Central Data Repository (CDR) Bulk Downloads", "",
      "## Overview",
      "The FFIEC CDR provides bulk downloads of Call Report data (FFIEC 031, 041, 051).", "",
      "## Important Note",
      "**Direct URL downloads are NOT possible** for CDR bulk data.",
      "The website requires JavaScript interaction and session cookies.", "",
      "## How to Download Manually",
      "1. Visit: https://cdr.ffiec.gov/public/pws/downloadbulkdata.aspx",
      "2. Select the report type (e.g., \"Call Reports - Single Period\")",
      "3. Select the time period",
      "4. Select the format (CSV recommended)",
      "5. Click Download", "",
      "## Available Data Types",
      "1. **Balance Sheet, Income Statement, Past Due** (Schedules RC, RI, RC-N)",
      "   - Tab delimited format",
      "   - All filers for selected year(s)", "",
      "2. **Call Reports - Single Period**",
      "   - All filers for a single quarter",
      "   - XBRL or CSV format", "",
      "## Programmatic Access Options", "",
      "### Option 1: FFIEC Webservice (SOAP API)",
      "```python",
      "pip install ffiec-data-connect", "",
      "from ffiec_data_connect import methods, credentials", "",
      "creds = credentials.WebserviceCredentials(username=\"user\", password=\"pass\")",
      "# Note: Requires FFIEC webservice account registration",
      "```", "",
      "### Option 2: Docker-based Data Collector",
      "See: https://github.com/call-report/data-collector", "",
      "### Option 3: Selenium Automation",
      "```python",
      "from selenium import webdriver",
      "from selenium.webdriver.common.by import By", "",
      "driver = webdriver.Chrome()",
      "driver.get(\"https://cdr.ffiec.gov/public/pws/downloadbulkdata.aspx\")",
      "# ... navigate and download",
      "```", "",
      "## Data Coverage",
      "- 2001 - Present (quarterly)",
      "- All FDIC-insured commercial banks",
      "- Schedules: RC, RC-A through RC-V, RI, RI-A through RI-E", "",
      "## Related Resources",
      "- CDR Help: https://cdr.ffiec.gov/public/HelpFiles/DownloadHelp.htm",
      "- Taxonomy: https://cdr.ffiec.gov/public/DownloadTaxonomy.aspx", "" ]

/-- `FFIECDownloader.download_cdr_info` (lines 383-459): writes the static
CDR instruction document into `metadata/` and returns `True`. -/
def download_cdr_info (cfg : Config) : Bool × Trace :=
  let sep := log cfg (sepLine 60)
  (true,
   ⟨[.writeFile ["metadata", "FFIEC_CDR_INSTRUCTIONS.md"] (.text cdrInstructions)], [],
    sep ++ log cfg "FFIEC CDR Bulk Download Information" ++ sep ++
    log cfg "  Saved CDR instructions to: metadata/FFIEC_CDR_INSTRUCTIONS.md"⟩)

/-- The `data_sources` map of the manifest: key and description of every
catalog entry. -/
def sourceDescriptions : List (String × String) :=
  DATA_SOURCES.map (fun p => (p.1, p.2.description))

/-- `FFIECDownloader._save_manifest` (lines 480-492): writes the manifest
JSON (timestamp, output directory, per-step results, source descriptions)
into `metadata/download_manifest.json`. -/
def save_manifest (cfg : Config) (results : List (String × Bool))
    (now : String) : Trace :=
  ⟨[.writeFile ["metadata", "download_manifest.json"]
      (.manifestDoc now cfg.outputDir results sourceDescriptions)], [],
   log cfg "Saved manifest to: metadata/download_manifest.json"⟩

/-- The network-facing nondeterminism of one invocation. -/
structure NetInputs where
  net : String → TransportResult
  zipParse : String → ZipArchive
  api : ApiResult

/-- `FFIECDownloader.download_all` (lines 465-478): runs the five steps in
fixed order, records their boolean results under fixed keys, and writes the
manifest afterwards.  An uncaught exception from the API step (malformed
`data` payload) propagates. -/
def download_all (cfg : Config) (inp : NetInputs) (now : String) :
    Except Unit (List (String × Bool) × Trace) :=
  let r1 := download_fdic_failed_banks cfg inp.net
  match download_fdic_failures_api cfg inp.api with
  | .error u => .error u
  | .ok r2 =>
      let r3 := download_nic_data cfg inp.net inp.zipParse
      let r4 := download_chicago_fed_data cfg
      let r5 := download_cdr_info cfg
      let results := [("fdic_failed_banks", r1.1), ("fdic_api", r2.1),
                      ("nic_data", r3.1), ("chicago_fed_info", r4.1),
                      ("cdr_info", r5.1)]
      .ok (results, r1.2 ++ r2.2 ++ r3.2 ++ r4.2 ++ r5.2 ++ save_manifest cfg results now)

/-- `FFIECDownloader.list_sources` (lines 494-526): prints the catalog with
plain `print` (unconditionally, ignoring verbosity); no filesystem events and
no network requests. -/
def list_sources : Trace :=
  let banner := ["", (sepLine 70),
                 "AVAILABLE DATA SOURCES",
                 (sepLine 70)]
  let block := fun (keyStart : String) =>
    ((DATA_SOURCES.filter (fun p => startsWithStr p.1 keyStart)).map
      (fun p => ["  • " ++ p.2.name, "    " ++ p.2.description,
                 "    URL: " ++ p.2.url, ""])).flatten
  Trace.ofOut
    (banner ++ ["", "[FDIC - Federal Deposit Insurance Corporation]"] ++ block "fdic" ++
     ["", "[NIC - National Information Center]"] ++ block "nic" ++
     ["", "[Chicago Fed - Historical Data]",
      "  • Commercial Bank Data (1976-2000)",
      "    Quarterly call report data in SAS XPORT format",
      "    URL: https://www.chicagofed.org/banking/financial-institution-reports/commercial-bank-data", "",
      "", "[FFIEC CDR - Central Data Repository]",
      "  • Call Reports Bulk Download (2001-present)",
      "    Requires browser interaction - no direct download URL",
      "    URL: https://cdr.ffiec.gov/public/pws/downloadbulkdata.aspx", ""])

/-- The parsed command-line flags (argparse is out of scope; `output_dir`
defaults to `DEFAULT_OUTPUT_DIR`). -/
structure Args where
  all : Bool
  fdic : Bool
  nic : Bool
  chicago_fed : Bool
  cdr : Bool
  list : Bool
  output_dir : String
  quiet : Bool
deriving Repr, DecidableEq

/-- `Args` with the `quiet` flag replaced. -/
def Args.withQuiet (a : Args) (q : Bool) : Args :=
  ⟨a.all, a.fdic, a.nic, a.chicago_fed, a.cdr, a.list, a.output_dir, q⟩

/-- The directory-creation calls of `FFIECDownloader.__init__`
(lines 145-150), performed on every invocation before any flag is handled:
the output directory itself and its four subdirectories. -/
def initTrace : Trace :=
  ⟨[.mkdir [], .mkdir ["fdic"], .mkdir ["nic"], .mkdir ["chicago_fed"], .mkdir ["metadata"]],
   [], []⟩

/-- The summary lines printed after `--all` (lines 584-589). -/
def summaryLines (results : List (String × Bool)) : List String :=
  ["", (sepLine 50), "DOWNLOAD SUMMARY",
   (sepLine 50)] ++
  results.map (fun r => "  " ++ r.1 ++ ": " ++ (if r.2 then "✓ Success" else "✗ Failed"))

/-- `main` (lines 533-608), after argument parsing: constructs the downloader
(creating directories), then dispatches: `--list` returns after printing the
catalog; `--all` runs the full sequence and prints the summary; otherwise the
individual flags each run their step, and if no action flag was given the
help text is printed.  `verbose = not args.quiet`. -/
def mainRun (args : Args) (inp : NetInputs) (now : String) : Except Unit Trace :=
  let cfg : Config := ⟨args.output_dir, !args.quiet⟩
  if args.list then .ok (initTrace ++ list_sources)
  else if args.all then
    match download_all cfg inp now with
    | .error u => .error u
    | .ok r => .ok (initTrace ++ r.2 ++ Trace.ofOut (summaryLines r.1))
  else
    let tFdic :=
      if args.fdic then
        let r1 := download_fdic_failed_banks cfg inp.net
        match download_fdic_failures_api cfg inp.api with
        | .error u => Except.error u
        | .ok r2 => Except.ok (r1.2 ++ r2.2)
      else Except.ok Trace.nil
    match tFdic with
    | .error u => .error u
    | .ok t1 =>
        let t2 := if args.nic then (download_nic_data cfg inp.net inp.zipParse).2 else Trace.nil
        let t3 := if args.chicago_fed then (download_chicago_fed_data cfg).2 else Trace.nil
        let t4 := if args.cdr then (download_cdr_info cfg).2 else Trace.nil
        let t5 :=
          if !(args.all || args.fdic || args.nic || args.chicago_fed || args.cdr) then
            Trace.ofOut ["usage: ffiec_nic_downloader.py [options]"]
          else Trace.nil
        .ok (initTrace ++ t1 ++ t2 ++ t3 ++ t4 ++ t5)

/-! ### Observers and fixtures used by the statements below -/

/-- Whether the trace writes a file at path `p`. -/
def writesPath (t : Trace) (p : List String) : Bool :=
  t.fs.any (fun e => e.isWrite && e.path == p)

/-- Whether the trace issues a mkdir call at path `p`. -/
def makesDir (t : Trace) (p : List String) : Bool :=
  t.fs.any (fun e => !e.isWrite && e.path == p)

/-- The directories a trace actually creates on a filesystem where exactly
the directories in `pre` already exist: `mkdir(exist_ok=True)` creates only
the missing ones. -/
def createdDirs (pre : List (List String)) (t : Trace) : List (List String) :=
  (t.fs.filter (fun e => !e.isWrite && !(pre.contains e.path))).map FSEvent.path

/-- Unwrap a completed run (a run that raised has no meaningful trace). -/
def runTrace : Except Unit Trace → Trace
  | .ok t => t
  | .error _ => Trace.nil

/-- Whether an `Except` computation completed without raising. -/
def completes {ε α : Type} : Except ε α → Bool
  | .ok _ => true
  | .error _ => false

/-- Unwrap the API step result. -/
def apiProj : Except Unit (Bool × Trace) → Bool × Trace
  | .ok r => r
  | .error _ => (false, Trace.nil)

/-- The results map of a completed full run. -/
def resultsOf : Except Unit (List (String × Bool) × Trace) → List (String × Bool)
  | .ok r => r.1
  | .error _ => []

/-- The trace of a completed full run. -/
def traceOfAll : Except Unit (List (String × Bool) × Trace) → Trace
  | .ok r => r.2
  | .error _ => Trace.nil

/-- The catalog entries the NIC step treats as archives: key starts with
`nic_` and format is `zip`. -/
def nicZipSources : List (String × Source) :=
  DATA_SOURCES.filter (fun p => startsWithStr p.1 "nic_" && p.2.format == "zip")

/-- A network oracle where every GET succeeds with the given body. -/
def okNet (body : String → String) : String → TransportResult :=
  fun u => .ok 0 [body u]

/-- Whether the code writes the CSV projection for a given parsed response
object: the `data` key is present and its value is truthy. -/
def csvExpected (fields : List (String × Json)) : Bool :=
  match fields.lookup "data" with
  | some v => v.truthy
  | none => false

/-- Fixture: verbose config at the default output directory. -/
def cfgW : Config := ⟨"./data/downloads", true⟩

/-- Fixture: every GET fails before the body. -/
def netFailW : String → TransportResult := fun _ => .failBefore

/-- Fixture: every GET fails mid-body leaving a truncated file. -/
def netFailMidW : String → TransportResult := fun _ => .failMid ["PARTIAL-BYTES"]

/-- Fixture: every downloaded archive is corrupt. -/
def zipCorruptW : String → ZipArchive := fun _ => .corrupt

/-- Fixture: all transports fail. -/
def inpFailW : NetInputs := ⟨netFailW, zipCorruptW, .err⟩

/-- Fixture: an invocation with only `--list`. -/
def argsListW : Args := ⟨false, false, false, false, false, true, "./data/downloads", false⟩

/-! ### Supporting lemmas -/

/-- Every call of `download_file` issues exactly one GET, for its URL. -/
theorem download_file_http (cfg : Config) (net : String → TransportResult)
    (url : String) (p : List String) (desc : String) :
    (download_file cfg net url p desc).2.http = [url] := by
  cases hn : net url <;> simp [download_file, hn]

/-! ### Claims -/

/-- C3: for every URL and destination path, a transport-level failure
(timeout, non-2xx status, connection error, mid-body error) makes
`download_file` return failure; it never reports success on a failed
transfer, even when a truncated output file remains (see the witness). -/
theorem c3_download_file_failure : ∀ (cfg : Config)
    (net : String → TransportResult) (url : String) (p : List String)
    (desc : String), (net url).isOk = false →
    (download_file cfg net url p desc).1 = false := by
  intro cfg net url p desc h
  cases hn : net url
  · rw [hn] at h; simp [TransportResult.isOk] at h
  · simp [download_file, hn]
  · simp [download_file, hn]

/-- C3 witness: a mid-body failure leaves a truncated file yet is reported
as failure. -/
theorem c3_download_file_failure_witness :
    (netFailMidW "https://www.fdic.gov/bank-failures/download-data.csv").isOk = false
    ∧ (download_file cfgW netFailMidW
        "https://www.fdic.gov/bank-failures/download-data.csv"
        ["fdic", "fdic_failed_banks.csv"] "FDIC Failed Bank List").1 = false
    ∧ writesPath (download_file cfgW netFailMidW
        "https://www.fdic.gov/bank-failures/download-data.csv"
        ["fdic", "fdic_failed_banks.csv"] "FDIC Failed Bank List").2
        ["fdic", "fdic_failed_banks.csv"] = true :=
  ⟨rfl, c3_download_file_failure cfgW netFailMidW _ _ _ rfl, rfl⟩

/-- C7: for every archive path, a corrupt archive makes `extract_zip` return
the empty list with no extraction writes, and log the bad-zip error (printed
when verbose); the exception is caught, not re-raised. -/
theorem c7_extract_zip_corrupt : ∀ (cfg : Config) (zp dir : List String),
    (extract_zip cfg .corrupt zp dir).1 = []
    ∧ (extract_zip cfg .corrupt zp dir).2.fs = []
    ∧ (extract_zip cfg .corrupt zp dir).2.out =
        log cfg ("  ERROR: Bad zip file " ++ pathString zp) :=
  fun _ _ _ => ⟨rfl, rfl, rfl⟩

/-- C8: for every valid archive, `extract_zip` returns one path per listed
entry: the length of the returned list equals the entry count. -/
theorem c8_extract_zip_count : ∀ (cfg : Config)
    (entries : List (String × String)) (zp dir : List String),
    ((extract_zip cfg (.valid entries) zp dir).1).length = entries.length := by
  intro cfg entries zp dir
  simp [extract_zip]

/-- C9: the failed-bank step always requests both mirror URLs, in order
(the second even when the first succeeds), and its boolean result is the
conjunction of the two per-URL download results. -/
theorem c9_mirrors_conjunction : ∀ (cfg : Config)
    (net : String → TransportResult),
    (download_fdic_failed_banks cfg net).2.http =
      ["https://www.fdic.gov/bank-failures/download-data.csv",
       "https://www.fdic.gov/resources/resolutions/bank-failures/failed-bank-list/banklist.csv"]
    ∧ (download_fdic_failed_banks cfg net).1 =
        ((download_file cfg net "https://www.fdic.gov/bank-failures/download-data.csv"
            ["fdic", "fdic_failed_banks.csv"] "FDIC Failed Bank List").1
         && (download_file cfg net
              "https://www.fdic.gov/resources/resolutions/bank-failures/failed-bank-list/banklist.csv"
              ["fdic", "fdic_failed_banks_legacy.csv"] "FDIC Failed Bank List (Legacy URL)").1) := by
  intro cfg net
  constructor
  · show (download_file cfg net "https://www.fdic.gov/bank-failures/download-data.csv"
        ["fdic", "fdic_failed_banks.csv"] "FDIC Failed Bank List").2.http ++
      (download_file cfg net
        "https://www.fdic.gov/resources/resolutions/bank-failures/failed-bank-list/banklist.csv"
        ["fdic", "fdic_failed_banks_legacy.csv"] "FDIC Failed Bank List (Legacy URL)").2.http = _
    rw [download_file_http, download_file_http]; rfl
  · rfl

/-- Filesystem events of a trace fold, unfolded to a flat concatenation. -/
theorem trace_foldl_fs (l : List (Bool × Trace)) (init : Trace) :
    (l.foldl (fun acc s => acc ++ s.2) init).fs =
      init.fs ++ (l.map (fun s => s.2.fs)).flatten := by
  induction l generalizing init with
  | nil => simp
  | cons hd tl ih =>
      rw [List.foldl_cons, ih, List.map_cons, List.flatten_cons, ← List.append_assoc]
      rfl

/-- Any filesystem event of the per-source step of a catalog entry the NIC
loop visits is an event of the whole NIC step. -/
theorem mem_download_nic_data_fs (cfg : Config)
    (net : String → TransportResult) (zipParse : String → ZipArchive)
    (p : String × Source)
    (hp : p ∈ DATA_SOURCES.filter (fun q => startsWithStr q.1 "nic_"))
    (ev : FSEvent) (hev : ev ∈ (processNicSource cfg net zipParse p).2.fs) :
    ev ∈ (download_nic_data cfg net zipParse).2.fs := by
  have hfs : (download_nic_data cfg net zipParse).2.fs =
      (Trace.ofOut (log cfg (sepLine 60) ++
        log cfg "Downloading FFIEC NIC Bulk Data" ++
        log cfg (sepLine 60))).fs ++
      (((DATA_SOURCES.filter (fun q => startsWithStr q.1 "nic_")).map
          (processNicSource cfg net zipParse)).map (fun s => s.2.fs)).flatten := by
    simp [download_nic_data, trace_foldl_fs]
  rw [hfs, List.mem_append]
  right
  rw [List.mem_flatten]
  exact ⟨(processNicSource cfg net zipParse p).2.fs,
         List.mem_map_of_mem _ (List.mem_map_of_mem _ hp), hev⟩

/-- The per-source step of a `zip`-format source whose download succeeds:
download write, directory creation, then the extraction events. -/
theorem processNicSource_zip_fs (cfg : Config)
    (net : String → TransportResult) (zipParse : String → ZipArchive)
    (k : String) (src : Source) (n : Nat) (chunks : List String)
    (hfmt : src.format = "zip") (hnet : net src.url = .ok n chunks) :
    (processNicSource cfg net zipParse (k, src)).2.fs =
      FSEvent.writeFile ["nic", src.filename] (.bytes (String.join chunks)) ::
      FSEvent.mkdir ["nic", stemOf src.filename] ::
      (extract_zip cfg (zipParse (String.join chunks)) ["nic", src.filename]
        ["nic", stemOf src.filename]).2.fs := by
  simp [processNicSource, download_file, hnet, hfmt, TransportResult.body,
        Trace.append_def]

/-- C1 (amended): `--list` performs no network requests and writes no files,
but the constructor first ensures the output directory and its four
subdirectories exist; the filesystem events of the run are exactly those
five mkdir calls. -/
theorem c1_list_only_mkdirs : ∀ (args : Args) (inp : NetInputs) (now : String),
    args.list = true →
    mainRun args inp now = .ok (initTrace ++ list_sources)
    ∧ (runTrace (mainRun args inp now)).fs =
        [.mkdir [], .mkdir ["fdic"], .mkdir ["nic"], .mkdir ["chicago_fed"],
         .mkdir ["metadata"]]
    ∧ (runTrace (mainRun args inp now)).http = [] := by
  intro args inp now h
  have hm : mainRun args inp now = .ok (initTrace ++ list_sources) := by
    simp [mainRun, h]
  exact ⟨hm, by rw [hm]; rfl, by rw [hm]; rfl⟩

/-- C1 witness: the amended claim at a concrete `--list` invocation. -/
theorem c1_list_only_mkdirs_witness :
    argsListW.list = true
    ∧ (runTrace (mainRun argsListW inpFailW "2026-10-12")).fs =
        [.mkdir [], .mkdir ["fdic"], .mkdir ["nic"], .mkdir ["chicago_fed"],
         .mkdir ["metadata"]]
    ∧ (runTrace (mainRun argsListW inpFailW "2026-10-12")).http = [] :=
  ⟨rfl, (c1_list_only_mkdirs argsListW inpFailW "2026-10-12" rfl).2.1,
        (c1_list_only_mkdirs argsListW inpFailW "2026-10-12" rfl).2.2⟩

/-- C1 counterexample: on a filesystem where no output directory exists yet,
an invocation with only `--list` creates five directories, so the claim that
no directory is created is false. -/
theorem c1_list_creates_dirs_counterexample :
    argsListW.list = true
    ∧ createdDirs [] (runTrace (mainRun argsListW inpFailW "2026-10-12")) =
        [[], ["fdic"], ["nic"], ["chicago_fed"], ["metadata"]] :=
  ⟨rfl, rfl⟩

/-- C2 counterexample: the NIC step of the full sequence handles five zip
archives, not four. -/
theorem c2_five_archives_counterexample :
    nicZipSources.length = 5 ∧ (nicZipSources.length == 4) = false :=
  ⟨rfl, rfl⟩

/-- C2 (amended): when every download succeeds, the NIC bulk-data step
downloads exactly six files, in catalog order (one PDF data dictionary and
five zip archives), and for each of the five zip archives it creates a
directory named after the archive stem (into which the archive is
extracted). -/
theorem c2_nic_step_downloads : ∀ (cfg : Config) (body : String → String)
    (zipParse : String → ZipArchive),
    nicZipSources.length = 5
    ∧ (download_nic_data cfg (okNet body) zipParse).2.http =
        ["https://www.ffiec.gov/npw/StaticData/DataDownload/NPW%20Data%20Dictionary.pdf",
         "https://www.ffiec.gov/npw/StaticData/DataDownload/CSV/CSV_ATTRIBUTES_ACTIVE.zip",
         "https://www.ffiec.gov/npw/StaticData/DataDownload/CSV/CSV_ATTRIBUTES_CLOSED.zip",
         "https://www.ffiec.gov/npw/StaticData/DataDownload/CSV/CSV_ATTRIBUTES_BRANCHES.zip",
         "https://www.ffiec.gov/npw/StaticData/DataDownload/CSV/CSV_RELATIONSHIPS.zip",
         "https://www.ffiec.gov/npw/StaticData/DataDownload/CSV/CSV_TRANSFORMATIONS.zip"]
    ∧ ∀ p ∈ nicZipSources,
        FSEvent.mkdir ["nic", stemOf p.2.filename] ∈
          (download_nic_data cfg (okNet body) zipParse).2.fs := by
  intro cfg body zipParse
  refine ⟨rfl, rfl, ?_⟩
  intro p hp
  obtain ⟨hmem, hcond⟩ := List.mem_filter.mp hp
  simp only [Bool.and_eq_true] at hcond
  have hp2 : p ∈ DATA_SOURCES.filter (fun q => startsWithStr q.1 "nic_") :=
    List.mem_filter.mpr ⟨hmem, hcond.1⟩
  have hfmt : p.2.format = "zip" := by
    have h2 := hcond.2
    simp only [beq_iff_eq] at h2
    exact h2
  refine mem_download_nic_data_fs cfg (okNet body) zipParse p hp2 _ ?_
  have hps : (p.1, p.2) = p := rfl
  rw [← hps, processNicSource_zip_fs cfg (okNet body) zipParse p.1 p.2 0
        [body p.2.url] hfmt rfl]
  exact List.mem_cons_of_mem _ (List.mem_cons_self _ _)

/-- C2 witness: the amended claim instantiated at a concrete run, checking
the directory for a concrete archive. -/
theorem c2_nic_step_downloads_witness :
    nicZipSources.length = 5
    ∧ FSEvent.mkdir ["nic", "NIC_Relationships"] ∈
        (download_nic_data cfgW (okNet (fun _ => "BYTES"))
          (fun _ => ZipArchive.corrupt)).2.fs :=
  ⟨(c2_nic_step_downloads cfgW (fun _ => "BYTES") (fun _ => ZipArchive.corrupt)).1,
   by
    have h := (c2_nic_step_downloads cfgW (fun _ => "BYTES")
      (fun _ => ZipArchive.corrupt)).2.2
      ("nic_relationships_csv",
        ⟨"NIC Relationships Table (CSV)",
         "Ownership relationships between institutions",
         "https://www.ffiec.gov/npw/StaticData/DataDownload/CSV/CSV_RELATIONSHIPS.zip",
         "zip", true, "NIC_Relationships.zip"⟩)
      (by decide)
    exact h⟩

/-- C5 counterexample: with every transport failing, the full sequence
produces no `nic` archive directory at all, although `nic_attributes_csv`
has format `zip` — so the claim that a run always produces the stem
directory is false. -/
theorem c5_no_dir_on_failure_counterexample :
    ((DATA_SOURCES.lookup "nic_attributes_csv").map Source.format = some "zip")
    ∧ makesDir (traceOfAll (download_all cfgW inpFailW "2026-10-12"))
        ["nic", "NIC_Attributes_Active"] = false
    ∧ writesPath (traceOfAll (download_all cfgW inpFailW "2026-10-12"))
        ["nic", "NIC_Attributes_Active.zip"] = false :=
  ⟨rfl, rfl, rfl⟩

/-- C5 (amended): for every catalog source of the NIC step with format
`zip`, whenever its download succeeds and the downloaded archive is valid,
the run creates a directory named after the archive stem and extracts every
listed entry into it. -/
theorem c5_zip_extraction : ∀ (cfg : Config)
    (net : String → TransportResult) (zipParse : String → ZipArchive)
    (k : String) (src : Source) (n : Nat) (chunks : List String)
    (entries : List (String × String)),
    (k, src) ∈ DATA_SOURCES → startsWithStr k "nic_" = true →
    src.format = "zip" → net src.url = .ok n chunks →
    zipParse (String.join chunks) = .valid entries →
    FSEvent.mkdir ["nic", stemOf src.filename] ∈
      (download_nic_data cfg net zipParse).2.fs
    ∧ ∀ e ∈ entries,
        FSEvent.writeFile ["nic", stemOf src.filename, e.1] (.bytes e.2) ∈
          (download_nic_data cfg net zipParse).2.fs := by
  intro cfg net zipParse k src n chunks entries hmem hpre hfmt hnet hzip
  have hp2 : (k, src) ∈ DATA_SOURCES.filter (fun q => startsWithStr q.1 "nic_") :=
    List.mem_filter.mpr ⟨hmem, hpre⟩
  have hstep := processNicSource_zip_fs cfg net zipParse k src n chunks hfmt hnet
  constructor
  · refine mem_download_nic_data_fs cfg net zipParse (k, src) hp2 _ ?_
    rw [hstep]
    exact List.mem_cons_of_mem _ (List.mem_cons_self _ _)
  · intro e he
    refine mem_download_nic_data_fs cfg net zipParse (k, src) hp2 _ ?_
    rw [hstep]
    refine List.mem_cons_of_mem _ (List.mem_cons_of_mem _ ?_)
    rw [hzip]
    simp only [extract_zip]
    exact List.mem_map.mpr ⟨e, he, by simp⟩

/-- C5 witness: the amended claim at a concrete source, network and
archive. -/
theorem c5_zip_extraction_witness :
    FSEvent.mkdir ["nic", "NIC_Attributes_Active"] ∈
      (download_nic_data cfgW (okNet (fun _ => "ZIPBYTES"))
        (fun _ => ZipArchive.valid [("CSV_ATTRIBUTES_ACTIVE.CSV", "a,b")])).2.fs
    ∧ FSEvent.writeFile ["nic", "NIC_Attributes_Active", "CSV_ATTRIBUTES_ACTIVE.CSV"]
        (.bytes "a,b") ∈
        (download_nic_data cfgW (okNet (fun _ => "ZIPBYTES"))
          (fun _ => ZipArchive.valid [("CSV_ATTRIBUTES_ACTIVE.CSV", "a,b")])).2.fs := by
  have h := c5_zip_extraction cfgW (okNet (fun _ => "ZIPBYTES"))
    (fun _ => ZipArchive.valid [("CSV_ATTRIBUTES_ACTIVE.CSV", "a,b")])
    "nic_attributes_csv"
    ⟨"NIC Attributes Table (CSV)",
     "Institution attributes data - entity characteristics",
     "https://www.ffiec.gov/npw/StaticData/DataDownload/CSV/CSV_ATTRIBUTES_ACTIVE.zip",
     "zip", true, "NIC_Attributes_Active.zip"⟩
    0 ["ZIPBYTES"] [("CSV_ATTRIBUTES_ACTIVE.CSV", "a,b")]
    (by decide) rfl rfl rfl rfl
  exact ⟨h.1, h.2 ("CSV_ATTRIBUTES_ACTIVE.CSV", "a,b") (List.mem_singleton.mpr rfl)⟩

/-- C4: whenever the API step completes (it does for every transport
outcome; only a malformed `data` payload raises), `--all` completes, its
results map has exactly the five fixed keys in order, and the manifest file
is written recording exactly those results — regardless of which steps
failed. -/
theorem c4_manifest_always_written : ∀ (cfg : Config) (inp : NetInputs)
    (now : String) (pr : Bool × Trace),
    download_fdic_failures_api cfg inp.api = .ok pr →
    completes (download_all cfg inp now) = true
    ∧ (resultsOf (download_all cfg inp now)).map Prod.fst =
        ["fdic_failed_banks", "fdic_api", "nic_data", "chicago_fed_info", "cdr_info"]
    ∧ FSEvent.writeFile ["metadata", "download_manifest.json"]
        (.manifestDoc now cfg.outputDir (resultsOf (download_all cfg inp now))
          sourceDescriptions)
        ∈ (traceOfAll (download_all cfg inp now)).fs := by
  intro cfg inp now pr h
  have hda : download_all cfg inp now =
      .ok ([("fdic_failed_banks", (download_fdic_failed_banks cfg inp.net).1),
            ("fdic_api", pr.1),
            ("nic_data", (download_nic_data cfg inp.net inp.zipParse).1),
            ("chicago_fed_info", (download_chicago_fed_data cfg).1),
            ("cdr_info", (download_cdr_info cfg).1)],
           (download_fdic_failed_banks cfg inp.net).2 ++ pr.2 ++
           (download_nic_data cfg inp.net inp.zipParse).2 ++
           (download_chicago_fed_data cfg).2 ++ (download_cdr_info cfg).2 ++
           save_manifest cfg
             [("fdic_failed_banks", (download_fdic_failed_banks cfg inp.net).1),
              ("fdic_api", pr.1),
              ("nic_data", (download_nic_data cfg inp.net inp.zipParse).1),
              ("chicago_fed_info", (download_chicago_fed_data cfg).1),
              ("cdr_info", (download_cdr_info cfg).1)] now) := by
    simp only [download_all, h]
  rw [hda]
  refine ⟨rfl, rfl, ?_⟩
  simp [resultsOf, traceOfAll, save_manifest, Trace.append_def, List.mem_append]

/-- The API step result at the all-transports-fail fixture. -/
def prW : Bool × Trace := apiProj (download_fdic_failures_api cfgW ApiResult.err)

/-- C4 witness: the claim at a run where every step fails; the manifest is
still written, with the five keys. -/
theorem c4_manifest_always_written_witness :
    download_fdic_failures_api cfgW inpFailW.api = .ok prW
    ∧ completes (download_all cfgW inpFailW "2026-10-12") = true
    ∧ (resultsOf (download_all cfgW inpFailW "2026-10-12")).map Prod.fst =
        ["fdic_failed_banks", "fdic_api", "nic_data", "chicago_fed_info", "cdr_info"]
    ∧ FSEvent.writeFile ["metadata", "download_manifest.json"]
        (.manifestDoc "2026-10-12" cfgW.outputDir
          (resultsOf (download_all cfgW inpFailW "2026-10-12")) sourceDescriptions)
        ∈ (traceOfAll (download_all cfgW inpFailW "2026-10-12")).fs :=
  ⟨rfl,
   (c4_manifest_always_written cfgW inpFailW "2026-10-12" prW rfl).1,
   (c4_manifest_always_written cfgW inpFailW "2026-10-12" prW rfl).2.1,
   (c4_manifest_always_written cfgW inpFailW "2026-10-12" prW rfl).2.2⟩

/-- C6 counterexample: an API response that parses to the non-empty object
with only a `totals` field makes the step write the raw JSON but not the
CSV, so the claim that both files are always written is false. -/
theorem c6_csv_not_written_counterexample :
    completes (download_fdic_failures_api cfgW (.ok [("totals", Json.jnum 5)])) = true
    ∧ (apiProj (download_fdic_failures_api cfgW (.ok [("totals", Json.jnum 5)]))).1 = true
    ∧ writesPath (apiProj (download_fdic_failures_api cfgW
        (.ok [("totals", Json.jnum 5)]))).2 ["fdic", "fdic_failures_api.json"] = true
    ∧ writesPath (apiProj (download_fdic_failures_api cfgW
        (.ok [("totals", Json.jnum 5)]))).2 ["fdic", "fdic_failures_api.csv"] = false :=
  ⟨rfl, rfl, rfl, rfl⟩

/-- C6 (amended): when the API call returns a response that parses to a JSON
object and the step does not raise, an empty object is treated as failure
(nothing written); a non-empty object has its raw JSON written, and the CSV
projection is additionally written exactly when the object has a truthy
`data` entry. -/
theorem c6_api_write_conditions : ∀ (cfg : Config)
    (fields : List (String × Json)) (b : Bool) (t : Trace),
    download_fdic_failures_api cfg (.ok fields) = .ok (b, t) →
    (fields.isEmpty = true → b = false ∧ t.fs = [])
    ∧ (fields.isEmpty = false →
        b = true
        ∧ writesPath t ["fdic", "fdic_failures_api.json"] = true
        ∧ writesPath t ["fdic", "fdic_failures_api.csv"] = csvExpected fields) := by
  intro cfg fields b t h
  simp only [download_fdic_failures_api, download_fdic_api_data] at h
  by_cases he : fields.isEmpty = true
  · simp only [he, if_true] at h
    simp only [Except.ok.injEq, Prod.mk.injEq] at h
    obtain ⟨hb, ht⟩ := h
    subst hb; subst ht
    refine ⟨fun _ => ⟨rfl, rfl⟩, fun hc => ?_⟩
    rw [he] at hc; cases hc
  · have he' : fields.isEmpty = false := by
      cases hf : fields.isEmpty
      · rfl
      · exact absurd hf he
    simp only [he', if_false, Bool.false_eq_true] at h
    refine ⟨fun hc => absurd (he' ▸ hc) Bool.false_ne_true, fun _ => ?_⟩
    cases hlk : fields.lookup "data" with
    | none =>
        simp only [hlk, Except.ok.injEq, Prod.mk.injEq] at h
        obtain ⟨hb, ht⟩ := h
        subst hb; subst ht
        refine ⟨rfl, rfl, ?_⟩
        have hcsv : csvExpected fields = false := by simp [csvExpected, hlk]
        rw [hcsv]; rfl
    | some v =>
        simp only [hlk] at h
        cases hj : json_to_csv cfg v ["fdic", "fdic_failures_api.csv"] with
        | error u => simp only [hj] at h; exact Except.noConfusion h
        | ok t3 =>
            simp only [hj, Except.ok.injEq, Prod.mk.injEq] at h
            obtain ⟨hb, ht⟩ := h
            subst hb; subst ht
            by_cases hv : v.truthy = false
            · have ht3 : Trace.nil = t3 := by
                have hj' : json_to_csv cfg v ["fdic", "fdic_failures_api.csv"] =
                    Except.ok Trace.nil := by simp [json_to_csv, hv]
                exact Except.ok.inj (hj'.symm.trans hj)
              rw [← ht3]
              refine ⟨rfl, rfl, ?_⟩
              have hcsv : csvExpected fields = false := by
                simp only [csvExpected, hlk]; exact hv
              rw [hcsv]; rfl
            · have hv' : v.truthy = true := by
                cases hvt : v.truthy
                · exact absurd hvt hv
                · rfl
              cases v with
              | jarr items =>
                  simp only [json_to_csv, hv', Bool.true_eq_false, if_false] at hj
                  cases hrl : asRecordList items with
                  | none => rw [hrl] at hj; exact Except.noConfusion hj
                  | some rs =>
                      rw [hrl] at hj
                      have ht3 := Except.ok.inj hj
                      rw [← ht3]
                      refine ⟨rfl, rfl, ?_⟩
                      have hcsv : csvExpected fields = true := by
                        simp only [csvExpected, hlk]; exact hv'
                      rw [hcsv]; rfl
              | jnull => simp [Json.truthy] at hv'
              | jbool bb =>
                  simp only [json_to_csv, hv', Bool.true_eq_false, if_false] at hj
                  exact Except.noConfusion hj
              | jnum n =>
                  simp only [json_to_csv, hv', Bool.true_eq_false, if_false] at hj
                  exact Except.noConfusion hj
              | jstr s =>
                  simp only [json_to_csv, hv', Bool.true_eq_false, if_false] at hj
                  exact Except.noConfusion hj
              | jobj fs2 =>
                  simp only [json_to_csv, hv', Bool.true_eq_false, if_false] at hj
                  exact Except.noConfusion hj

/-- Fixture: a parsed `/failures` response with one record under `data`. -/
def fieldsW : List (String × Json) :=
  [("data", Json.jarr [Json.jobj [("NAME", Json.jstr "First National Bank")]])]

/-- C6 witness: the amended claim at a response carrying one failure
record — both the JSON and the CSV are written. -/
theorem c6_api_write_conditions_witness :
    fieldsW.isEmpty = false
    ∧ writesPath (apiProj (download_fdic_failures_api cfgW (.ok fieldsW))).2
        ["fdic", "fdic_failures_api.json"] = true
    ∧ writesPath (apiProj (download_fdic_failures_api cfgW (.ok fieldsW))).2
        ["fdic", "fdic_failures_api.csv"] = csvExpected fieldsW :=
  have h := c6_api_write_conditions cfgW fieldsW
    (apiProj (download_fdic_failures_api cfgW (.ok fieldsW))).1
    (apiProj (download_fdic_failures_api cfgW (.ok fieldsW))).2 rfl
  ⟨rfl, ((h.2) rfl).2.1, ((h.2) rfl).2.2⟩

/-! ### Verbosity-independence machinery (claim C10)

Each operation reads `cfg.verbose` only inside `log` and the progress
printing of `download_file`, so its result, filesystem events and HTTP
requests do not depend on it.  `obsT`/`obsBT` project a trace onto those
log-free observables; each lemma below normalises a run at any verbosity to
the verbose run. -/

/-- The log-free observables of a trace. -/
def obsT (t : Trace) : List FSEvent × List String := (t.fs, t.http)

/-- The log-free observables of a (result, trace) pair. -/
def obsBT (r : Bool × Trace) : Bool × List FSEvent × List String :=
  (r.1, obsT r.2)

theorem obsBT_comp {a b : Bool × Trace} (h : obsBT a = obsBT b) :
    a.1 = b.1 ∧ a.2.fs = b.2.fs ∧ a.2.http = b.2.http := by
  cases a; cases b
  simpa [obsBT, obsT, Prod.mk.injEq] using h

theorem strip_eq_of_obs {a b : Trace} (h : obsT a = obsT b) :
    a.strip = b.strip := by
  cases a; cases b
  simp only [obsT, Prod.mk.injEq] at h
  simp [Trace.strip, h.1, h.2]

theorem download_file_obs (d : String) (v : Bool)
    (net : String → TransportResult) (url : String) (p : List String)
    (desc : String) :
    obsBT (download_file ⟨d, v⟩ net url p desc) =
      obsBT (download_file ⟨d, true⟩ net url p desc) := by
  cases hn : net url <;> simp [download_file, obsBT, obsT, hn]

theorem extract_zip_obs (d : String) (v : Bool) (a : ZipArchive)
    (q dir : List String) :
    (extract_zip ⟨d, v⟩ a q dir).1 = (extract_zip ⟨d, true⟩ a q dir).1
    ∧ (extract_zip ⟨d, v⟩ a q dir).2.fs = (extract_zip ⟨d, true⟩ a q dir).2.fs := by
  cases a <;> exact ⟨rfl, rfl⟩

theorem extract_zip_http_nil (cfg : Config) (a : ZipArchive)
    (q dir : List String) : (extract_zip cfg a q dir).2.http = [] := rfl

theorem lookup_fdic_main_eq :
    DATA_SOURCES.lookup "fdic_failed_banks" =
      some ⟨"FDIC Failed Bank List",
            "List of all FDIC-insured banks that have failed since October 1, 2000",
            "https://www.fdic.gov/bank-failures/download-data.csv",
            "csv", true, "fdic_failed_banks.csv"⟩ := rfl

theorem lookup_fdic_legacy_eq :
    DATA_SOURCES.lookup "fdic_failed_banks_legacy" =
      some ⟨"FDIC Failed Bank List (Legacy URL)",
            "Alternative URL for failed bank list",
            "https://www.fdic.gov/resources/resolutions/bank-failures/failed-bank-list/banklist.csv",
            "csv", true, "fdic_failed_banks_legacy.csv"⟩ := rfl

theorem download_fdic_failed_banks_obs (d : String) (v : Bool)
    (net : String → TransportResult) :
    obsBT (download_fdic_failed_banks ⟨d, v⟩ net) =
      obsBT (download_fdic_failed_banks ⟨d, true⟩ net) := by
  obtain ⟨hr1, hfs1, hh1⟩ := obsBT_comp (download_file_obs d v net
    "https://www.fdic.gov/bank-failures/download-data.csv"
    ["fdic", "fdic_failed_banks.csv"] "FDIC Failed Bank List")
  obtain ⟨hr2, hfs2, hh2⟩ := obsBT_comp (download_file_obs d v net
    "https://www.fdic.gov/resources/resolutions/bank-failures/failed-bank-list/banklist.csv"
    ["fdic", "fdic_failed_banks_legacy.csv"] "FDIC Failed Bank List (Legacy URL)")
  simp only [download_fdic_failed_banks, lookup_fdic_main_eq,
             lookup_fdic_legacy_eq, obsBT, obsT, Trace.append_def,
             Trace.ofOut, Prod.mk.injEq]
  exact ⟨by rw [hr1, hr2], by rw [hfs1, hfs2], by rw [hh1, hh2]⟩

theorem processNicSource_obs (d : String) (v : Bool)
    (net : String → TransportResult) (zp : String → ZipArchive)
    (p : String × Source) :
    obsBT (processNicSource ⟨d, v⟩ net zp p) =
      obsBT (processNicSource ⟨d, true⟩ net zp p) := by
  obtain ⟨hr, hfs, hh⟩ := obsBT_comp (download_file_obs d v net p.2.url
    ["nic", p.2.filename] p.2.name)
  simp only [processNicSource]
  rw [hr]
  cases hd : (download_file ⟨d, true⟩ net p.2.url ["nic", p.2.filename] p.2.name).1
  · simp [obsBT, obsT, hfs, hh]
  · cases hfmt : (p.2.format == "zip")
    · simp [hfmt, obsBT, obsT, hfs, hh]
    · simp [hfmt, obsBT, obsT, Trace.append_def, hfs, hh,
            (extract_zip_obs d v (zp (net p.2.url).body) ["nic", p.2.filename]
              ["nic", stemOf p.2.filename]).2,
            extract_zip_http_nil]

/-- HTTP requests of a trace fold, unfolded to a flat concatenation. -/
theorem trace_foldl_http (l : List (Bool × Trace)) (init : Trace) :
    (l.foldl (fun acc s => acc ++ s.2) init).http =
      init.http ++ (l.map (fun s => s.2.http)).flatten := by
  induction l generalizing init with
  | nil => simp
  | cons hd tl ih =>
      rw [List.foldl_cons, ih, List.map_cons, List.flatten_cons, ← List.append_assoc]
      rfl

theorem map_all_fst_congr {α : Type} (f g : α → Bool × Trace) (l : List α)
    (h : ∀ p, (f p).1 = (g p).1) :
    (l.map f).all (·.1) = (l.map g).all (·.1) := by
  induction l with
  | nil => rfl
  | cons a t ih => simp [h a, ih]

theorem map_trace_fs_congr {α : Type} (f g : α → Bool × Trace) (l : List α)
    (h : ∀ p, (f p).2.fs = (g p).2.fs) :
    (l.map f).map (fun s => s.2.fs) = (l.map g).map (fun s => s.2.fs) := by
  induction l with
  | nil => rfl
  | cons a t ih => simp [h a, ih]

theorem map_trace_http_congr {α : Type} (f g : α → Bool × Trace) (l : List α)
    (h : ∀ p, (f p).2.http = (g p).2.http) :
    (l.map f).map (fun s => s.2.http) = (l.map g).map (fun s => s.2.http) := by
  induction l with
  | nil => rfl
  | cons a t ih => simp [h a, ih]

theorem download_nic_data_obs (d : String) (v : Bool)
    (net : String → TransportResult) (zp : String → ZipArchive) :
    obsBT (download_nic_data ⟨d, v⟩ net zp) =
      obsBT (download_nic_data ⟨d, true⟩ net zp) := by
  have hpt := fun p => obsBT_comp (processNicSource_obs d v net zp p)
  simp only [download_nic_data, obsBT, obsT, Prod.mk.injEq]
  refine ⟨?_, ?_, ?_⟩
  · exact map_all_fst_congr _ _ _ (fun p => (hpt p).1)
  · rw [trace_foldl_fs, trace_foldl_fs,
        map_trace_fs_congr _ _ _ (fun p => (hpt p).2.1)]
    rfl
  · rw [trace_foldl_http, trace_foldl_http,
        map_trace_http_congr _ _ _ (fun p => (hpt p).2.2)]
    rfl

theorem download_chicago_fed_data_obs (d : String) (v : Bool) :
    obsBT (download_chicago_fed_data ⟨d, v⟩) =
      obsBT (download_chicago_fed_data ⟨d, true⟩) := rfl

theorem download_cdr_info_obs (d : String) (v : Bool) :
    obsBT (download_cdr_info ⟨d, v⟩) = obsBT (download_cdr_info ⟨d, true⟩) := rfl

theorem json_to_csv_obs (d : String) (v : Bool) (records : Json)
    (p : List String) :
    (json_to_csv ⟨d, v⟩ records p).map (fun t => (t.fs, t.http)) =
      (json_to_csv ⟨d, true⟩ records p).map (fun t => (t.fs, t.http)) := by
  unfold json_to_csv
  split
  · rfl
  · split
    · split
      · rfl
      · rfl
    · rfl

theorem failures_api_obs (d : String) (v : Bool) (api : ApiResult) :
    (download_fdic_failures_api ⟨d, v⟩ api).map obsBT =
      (download_fdic_failures_api ⟨d, true⟩ api).map obsBT := by
  cases api with
  | err => rfl
  | ok fields =>
      simp only [download_fdic_failures_api, download_fdic_api_data]
      cases hie : fields.isEmpty
      · simp only [hie, Bool.false_eq_true, if_false]
        cases hlk : fields.lookup "data" with
        | none => rfl
        | some v2 =>
            have hj := json_to_csv_obs d v v2 ["fdic", "fdic_failures_api.csv"]
            cases hjv : json_to_csv ⟨d, v⟩ v2 ["fdic", "fdic_failures_api.csv"] with
            | error u =>
                cases hjt : json_to_csv ⟨d, true⟩ v2 ["fdic", "fdic_failures_api.csv"] with
                | error u2 => cases u; cases u2; simp [hjv, hjt]
                | ok t3 => rw [hjv, hjt] at hj; exact absurd hj (by simp [Except.map])
            | ok t3v =>
                cases hjt : json_to_csv ⟨d, true⟩ v2 ["fdic", "fdic_failures_api.csv"] with
                | error u2 => rw [hjv, hjt] at hj; exact absurd hj (by simp [Except.map])
                | ok t3t =>
                    rw [hjv, hjt] at hj
                    simp only [Except.map, Except.ok.injEq, Prod.mk.injEq] at hj
                    simp [hjv, hjt, obsBT, obsT, Except.map, Trace.append_def,
                          Trace.ofOut, hj.1, hj.2]
      · simp [hie, Except.map, obsBT, obsT, Trace.append_def, Trace.ofOut]

theorem save_manifest_obs (d : String) (v : Bool)
    (results : List (String × Bool)) (now : String) :
    obsT (save_manifest ⟨d, v⟩ results now) =
      obsT (save_manifest ⟨d, true⟩ results now) := rfl

/-- The log-free observables of a full-run result. -/
def obsDA (r : List (String × Bool) × Trace) :
    List (String × Bool) × List FSEvent × List String := (r.1, obsT r.2)

theorem download_all_obs (d : String) (v : Bool) (inp : NetInputs)
    (now : String) :
    (download_all ⟨d, v⟩ inp now).map obsDA =
      (download_all ⟨d, true⟩ inp now).map obsDA := by
  obtain ⟨hb1, hfs1, hh1⟩ := obsBT_comp (download_fdic_failed_banks_obs d v inp.net)
  obtain ⟨hb3, hfs3, hh3⟩ := obsBT_comp (download_nic_data_obs d v inp.net inp.zipParse)
  obtain ⟨hb4, hfs4, hh4⟩ := obsBT_comp (download_chicago_fed_data_obs d v)
  obtain ⟨hb5, hfs5, hh5⟩ := obsBT_comp (download_cdr_info_obs d v)
  have hapi := failures_api_obs d v inp.api
  cases hv1 : download_fdic_failures_api ⟨d, v⟩ inp.api with
  | error u =>
      cases ht1 : download_fdic_failures_api ⟨d, true⟩ inp.api with
      | error u2 => cases u; cases u2; simp [download_all, hv1, ht1]
      | ok rt => rw [hv1, ht1] at hapi; exact absurd hapi (by simp [Except.map])
  | ok rv =>
      cases ht1 : download_fdic_failures_api ⟨d, true⟩ inp.api with
      | error u2 => rw [hv1, ht1] at hapi; exact absurd hapi (by simp [Except.map])
      | ok rt =>
          rw [hv1, ht1] at hapi
          simp only [Except.map, Except.ok.injEq] at hapi
          obtain ⟨hb2, hfs2, hh2⟩ := obsBT_comp hapi
          simp only [download_all, hv1, ht1, Except.map, obsDA, obsT,
                     Trace.append_def, save_manifest, Except.ok.injEq,
                     Prod.mk.injEq]
          refine ⟨?_, ?_, ?_⟩
          · rw [hb1, hb2, hb3, hb4, hb5]
          · rw [hb1, hb2, hb3, hb4, hb5, hfs1, hfs2, hfs3, hfs4, hfs5]
          · rw [hh1, hh2, hh3, hh4, hh5]

theorem map_strip_of_map_obsDA {e1 e2 : Except Unit (List (String × Bool) × Trace)}
    (h : e1.map obsDA = e2.map obsDA) :
    e1.map (fun r => (r.1, r.2.strip)) = e2.map (fun r => (r.1, r.2.strip)) := by
  cases e1 with
  | error u => cases e2 with
    | error u2 => cases u; cases u2; rfl
    | ok r => exact absurd h (by simp [Except.map])
  | ok r1 => cases e2 with
    | error u2 => exact absurd h (by simp [Except.map])
    | ok r2 =>
        simp only [Except.map, Except.ok.injEq, obsDA, Prod.mk.injEq] at h ⊢
        exact ⟨h.1, strip_eq_of_obs h.2⟩

theorem mainRun_obs (args : Args) (inp : NetInputs) (now : String) (v : Bool) :
    (mainRun (args.withQuiet false) inp now).map (fun t => obsT t) =
      (mainRun (args.withQuiet v) inp now).map (fun t => obsT t) := by
  cases hl : args.list with
  | true => simp [mainRun, Args.withQuiet, hl]
  | false =>
  cases ha : args.all with
  | true =>
      have hkey : (download_all ⟨args.output_dir, true⟩ inp now).map obsDA =
          (download_all ⟨args.output_dir, !v⟩ inp now).map obsDA :=
        (download_all_obs args.output_dir (!v) inp now).symm
      cases hv1 : download_all ⟨args.output_dir, true⟩ inp now with
      | error u =>
          cases ht1 : download_all ⟨args.output_dir, !v⟩ inp now with
          | error u2 =>
              cases u; cases u2
              simp [mainRun, Args.withQuiet, hl, ha, hv1, ht1]
          | ok rt => rw [hv1, ht1] at hkey; exact absurd hkey (by simp [Except.map])
      | ok rv =>
          cases ht1 : download_all ⟨args.output_dir, !v⟩ inp now with
          | error u2 => rw [hv1, ht1] at hkey; exact absurd hkey (by simp [Except.map])
          | ok rt =>
              rw [hv1, ht1] at hkey
              simp only [Except.map, Except.ok.injEq, obsDA, obsT, Prod.mk.injEq] at hkey
              simp [mainRun, Args.withQuiet, hl, ha, hv1, ht1, Except.map, obsT,
                    Trace.append_def, Trace.ofOut, initTrace,
                    hkey.2.1, hkey.2.2]
  | false =>
      obtain ⟨hb1, hfs1, hh1⟩ := obsBT_comp
        (download_fdic_failed_banks_obs args.output_dir (!v) inp.net)
      obtain ⟨hb3, hfs3, hh3⟩ := obsBT_comp
        (download_nic_data_obs args.output_dir (!v) inp.net inp.zipParse)
      obtain ⟨hb4, hfs4, hh4⟩ := obsBT_comp
        (download_chicago_fed_data_obs args.output_dir (!v))
      obtain ⟨hb5, hfs5, hh5⟩ := obsBT_comp (download_cdr_info_obs args.output_dir (!v))
      have hapi : (download_fdic_failures_api ⟨args.output_dir, true⟩ inp.api).map obsBT =
          (download_fdic_failures_api ⟨args.output_dir, !v⟩ inp.api).map obsBT :=
        (failures_api_obs args.output_dir (!v) inp.api).symm
      cases hf : args.fdic with
      | true =>
          cases hv1 : download_fdic_failures_api ⟨args.output_dir, true⟩ inp.api with
          | error u =>
              cases ht1 : download_fdic_failures_api ⟨args.output_dir, !v⟩ inp.api with
              | error u2 =>
                  cases u; cases u2
                  simp [mainRun, Args.withQuiet, hl, ha, hf, hv1, ht1]
              | ok rt => rw [hv1, ht1] at hapi; exact absurd hapi (by simp [Except.map])
          | ok rv =>
              cases ht1 : download_fdic_failures_api ⟨args.output_dir, !v⟩ inp.api with
              | error u2 => rw [hv1, ht1] at hapi; exact absurd hapi (by simp [Except.map])
              | ok rt =>
                  rw [hv1, ht1] at hapi
                  simp only [Except.map, Except.ok.injEq] at hapi
                  obtain ⟨hb2, hfs2, hh2⟩ := obsBT_comp hapi
                  simp [mainRun, Args.withQuiet, hl, ha, hf, hv1, ht1, Except.map,
                        obsT, Trace.append_def, Trace.ofOut, Trace.nil, initTrace,
                        apply_ite Trace.fs, apply_ite Trace.http,
                        hfs1, hh1, hfs2, hh2, hfs3, hh3, hfs4, hh4, hfs5, hh5]
      | false =>
          simp [mainRun, Args.withQuiet, hl, ha, hf, Except.map, obsT,
                Trace.append_def, Trace.ofOut, Trace.nil, initTrace,
                apply_ite Trace.fs, apply_ite Trace.http,
                hfs3, hh3, hfs4, hh4, hfs5, hh5]

theorem map_strip_of_map_obsT {e1 e2 : Except Unit Trace}
    (h : e1.map (fun t => obsT t) = e2.map (fun t => obsT t)) :
    e1.map Trace.strip = e2.map Trace.strip := by
  cases e1 with
  | error u => cases e2 with
    | error u2 => cases u; cases u2; rfl
    | ok t => exact absurd h (by simp [Except.map])
  | ok t1 => cases e2 with
    | error u2 => exact absurd h (by simp [Except.map])
    | ok t2 =>
        simp only [Except.map, Except.ok.injEq] at h ⊢
        exact strip_eq_of_obs h

/-- C10: for identical network inputs, the `--quiet` flag changes nothing
but the printed output: the completion status, every filesystem event, every
HTTP request of a full `main` run, and the per-step boolean results of
`download_all`, are identical between the quiet and the verbose run. -/
theorem c10_quiet_only_logging : ∀ (args : Args) (inp : NetInputs)
    (now : String),
    (mainRun (args.withQuiet true) inp now).map Trace.strip =
      (mainRun (args.withQuiet false) inp now).map Trace.strip
    ∧ (download_all ⟨args.output_dir, false⟩ inp now).map
        (fun r => (r.1, r.2.strip)) =
      (download_all ⟨args.output_dir, true⟩ inp now).map
        (fun r => (r.1, r.2.strip)) := by
  intro args inp now
  constructor
  · exact (map_strip_of_map_obsT (mainRun_obs args inp now true)).symm
  · exact map_strip_of_map_obsDA (download_all_obs args.output_dir false inp now)

end FfiecNic
